import Mathlib

/-!
Verification development for the Stripe webhook crediting service
(`stripe_webhook.py`).  The Python source is shallowly embedded below:
the two database tables become a functional state, each SQL statement
becomes a pure state transformer, and the request handlers become
functions from their inputs (plus the state) to a result and a new
state.  Machine integers are modelled by `Int` (Python integers are
unbounded; the `INT`/`BIGINT` columns never approach their bounds in
this subsystem).
-/

/-- A row of the `users` table:
`user_id BIGINT PRIMARY KEY, lang TEXT DEFAULT 'en', balance INT DEFAULT 0,
demo_used INT DEFAULT 0` (the timestamp column is not observable by any
operation and is omitted). -/
structure UserRec where
  lang : String
  balance : Int
  demo_used : Int
deriving DecidableEq, Repr

/-- A row of the `stripe_purchases` table:
`session_id TEXT PRIMARY KEY, user_id BIGINT, pack TEXT, songs INT`
(timestamp omitted, as above). -/
structure PurchaseRec where
  user_id : Int
  pack : String
  songs : Int
deriving DecidableEq, Repr

/-- The database state: the `users` table keyed by `user_id` and the
`stripe_purchases` table keyed by `session_id`.  The primary keys make
each table a partial map. -/
structure DBState where
  users : Int → Option UserRec
  purchases : String → Option PurchaseRec

/-- The empty database (both tables empty), as produced by `init_db`. -/
def emptyDB : DBState := ⟨fun _ => none, fun _ => none⟩

/-- Balance of a user as observed through the store: the `balance` column
of the user's row, or `0` when no row exists (a fresh row is created with
`balance` defaulting to `0`). -/
def balanceOf (st : DBState) (u : Int) : Int :=
  match st.users u with
  | some r => r.balance
  | none => 0

/-- The fixed pack catalog
`PACK_TO_SONGS = \x7b"pack_1": 1, "pack_5": 5, "pack_30": 30\x7d`. -/
def PACK_TO_SONGS (p : String) : Option Int :=
  if p = "pack_1" then some 1
  else if p = "pack_5" then some 5
  else if p = "pack_30" then some 30
  else none

/-- Python truthiness of an optional string, as used by
`if not stripe_signature` and `if session_id and user_id and ...`:
`None` and the empty string are falsy. -/
def truthy : Option String → Bool
  | none => false
  | some s => s ≠ ""

/-- Membership test `pack in PACK_TO_SONGS` where `pack` may be `None`. -/
def packMem : Option String → Bool
  | none => false
  | some p => (PACK_TO_SONGS p).isSome

/-- Digit-run parser used to model Python `int()`: all characters must be
decimal digits and there must be at least one. -/
def pyDigits (cs : List Char) : Option Nat :=
  if cs.isEmpty then none
  else if cs.all Char.isDigit then
    some (cs.foldl (fun a c => a * 10 + (c.toNat - 48)) 0)
  else none

/-- Surrounding-whitespace stripping on a character list (Python `int`
ignores leading and trailing whitespace). -/
def stripWS (cs : List Char) : List Char :=
  ((cs.dropWhile Char.isWhitespace).reverse.dropWhile Char.isWhitespace).reverse

/-- Model of Python `int(s)` on strings: surrounding whitespace is
stripped, an optional single sign is allowed, the rest must be decimal
digits; anything else raises `ValueError`, modelled as `none`.
(Underscore digit grouping is not modelled; no input of interest uses it.) -/
def pyInt (s : String) : Option Int :=
  match stripWS s.data with
  | '+' :: rest => (pyDigits rest).map Int.ofNat
  | '-' :: rest => (pyDigits rest).map (fun n => -(Int.ofNat n))
  | cs => (pyDigits cs).map Int.ofNat

/-- Statement `INSERT INTO users(user_id) VALUES(%s) ON CONFLICT DO NOTHING`:
creates the row with the column defaults (`lang 'en'`, `balance 0`,
`demo_used 0`) unless it already exists. -/
def upsertUser (st : DBState) (uid : Int) : DBState :=
  match st.users uid with
  | some _ => st
  | none =>
      { st with users := fun u => if u = uid then some ⟨"en", 0, 0⟩ else st.users u }

/-- Statement `INSERT INTO stripe_purchases(session_id, user_id, pack, songs)`
in the case where the primary key is fresh. -/
def setPurchase (st : DBState) (sid : String) (p : PurchaseRec) : DBState :=
  { st with purchases := fun s => if s = sid then some p else st.purchases s }

/-- Statement `UPDATE users SET balance = balance + %s WHERE user_id=%s`: adds `d`
to the row's balance when the row exists, otherwise updates nothing. -/
def bumpBalance (st : DBState) (uid : Int) (d : Int) : DBState :=
  { st with users := fun u =>
      if u = uid then (st.users u).map (fun r => { r with balance := r.balance + d })
      else st.users u }

/-- The committed effect of the success path of `add_balance_once`:
user upsert, purchase insert, balance increment, in source order. -/
def creditState (st : DBState) (sid : String) (uid : Int) (pk : String) (songs : Int) : DBState :=
  bumpBalance (setPurchase (upsertUser st uid) sid ⟨uid, pk, songs⟩) uid songs

/-- Function `add_balance_once(session_id, user_id, pack, songs)`.  The three SQL
statements run in one transaction on one connection.  The purchase insert
is wrapped in `try/except Exception`: it raises when the `session_id`
primary key already exists (the uniqueness violation), and may also raise
on any other database error — `fault` is the oracle for such an error.
On a raise the code rolls the whole transaction back (discarding the user
upsert too) and returns `False` with the store unchanged; otherwise the
balance update runs and all three statements commit together, returning
`True`. -/
def add_balance_once (fault : Bool) (st : DBState) (session_id : String)
    (user_id : Int) (pack : String) (songs : Int) : Bool × DBState :=
  if fault || (st.purchases session_id).isSome then
    (false, st)
  else
    (true, creditState st session_id user_id pack songs)

/-- The JSON acknowledgment bodies returned by the webhook handler with
HTTP 200: `ok` is always `True`; `ignored` is `some "not_paid"` only on
the not-paid path; `credited` is `some b` only on the crediting path. -/
structure WebhookAck where
  ok : Bool
  ignored : Option String
  credited : Option Bool
deriving DecidableEq, Repr

/-- Outcome of one webhook request: an `HTTPException` with its status
code and detail, a 200 response with a JSON acknowledgment, or an
unhandled exception escaping the handler (server error). -/
inductive WebhookResult where
  | httpError (code : Nat) (detail : String)
  | ok (body : WebhookAck)
  | raised
deriving DecidableEq, Repr

/-- The `metadata` object of a checkout session, holding the values set
by `create_checkout`: `user_id` and `pack`, each possibly absent. -/
structure SessionMeta where
  user_id : Option String
  pack : Option String
deriving DecidableEq, Repr

/-- Object `event["data"]["object"]` for a checkout-session event: the fields
the handler reads via `.get`, each possibly absent. -/
structure StripeSession where
  id : Option String
  payment_status : Option String
  metadata : Option SessionMeta
deriving DecidableEq, Repr

/-- A Stripe event as the handler sees it after signature verification:
its `type` and its session object. -/
structure StripeEvent where
  type : String
  obj : StripeSession
deriving DecidableEq, Repr

/-- The guard at line 188 of the source,
`if session_id and user_id and pack in PACK_TO_SONGS:`
(Python truthiness on the two strings, dict membership for the pack). -/
def guardOk (s : StripeSession) : Bool :=
  truthy s.id && truthy (s.metadata.bind SessionMeta.user_id)
    && packMem (s.metadata.bind SessionMeta.pack)

/-- The crediting tail of the handler, reached when the guard passed:
`songs = PACK_TO_SONGS[pack]`, then `int(user_id)` (which raises on a
non-numeral), then `add_balance_once`, then
`return \x7b"ok": True, "credited": credited\x7d`. -/
def handleCredit (fault : Bool) (sid uidS pk : String) (st : DBState) :
    WebhookResult × DBState :=
  match PACK_TO_SONGS pk with
  | some songs =>
      match pyInt uidS with
      | some uid =>
          let r := add_balance_once fault st sid uid pk songs
          (.ok ⟨true, none, some r.1⟩, r.2)
      | none => (.raised, st)
  | none => (.ok ⟨true, none, none⟩, st)

/-- The `checkout.session.completed` branch of the handler: the
payment-status gate, field extraction from the session and its metadata,
the presence/catalog guard, and the crediting tail; any fall-through
returns the bare `\x7b"ok": True\x7d`. -/
def handleCompleted (fault : Bool) (s : StripeSession) (st : DBState) :
    WebhookResult × DBState :=
  if s.payment_status ≠ some "paid" then
    (.ok ⟨true, some "not_paid", none⟩, st)
  else
    match s.id, s.metadata.bind SessionMeta.user_id, s.metadata.bind SessionMeta.pack with
    | some sid, some uidS, some pk =>
        if sid ≠ "" ∧ uidS ≠ "" ∧ (PACK_TO_SONGS pk).isSome then
          handleCredit fault sid uidS pk st
        else (.ok ⟨true, none, none⟩, st)
    | _, _, _ => (.ok ⟨true, none, none⟩, st)

/-- The `/stripe/webhook` handler.  `secretSet` is whether
`STRIPE_WEBHOOK_SECRET` is configured (nonempty); `sig` is the
`Stripe-Signature` header; `sigValid` is whether
`stripe.Webhook.construct_event` accepts the payload against the secret
(signature verification is abstracted: it either yields `event` or
raises).  Order of checks follows the source: missing secret (500),
missing header (400), invalid signature (400), then event dispatch. -/
def stripe_webhook (secretSet : Bool) (sig : Option String) (sigValid : Bool)
    (event : StripeEvent) (fault : Bool) (st : DBState) : WebhookResult × DBState :=
  if !secretSet then
    (.httpError 500 "STRIPE_WEBHOOK_SECRET not set", st)
  else if !truthy sig then
    (.httpError 400 "Missing Stripe-Signature header", st)
  else if !sigValid then
    (.httpError 400 "Invalid signature", st)
  else if event.type = "checkout.session.completed" then
    handleCompleted fault event.obj st
  else
    (.ok ⟨true, none, none⟩, st)

/-- Sequencing: `n` deliveries of the same webhook request in sequence: the list of
responses and the final state. -/
def deliverList (secretSet : Bool) (sig : Option String) (sigValid : Bool)
    (event : StripeEvent) (fault : Bool) : Nat → DBState → List WebhookResult × DBState
  | 0, st => ([], st)
  | n + 1, st =>
      let r := stripe_webhook secretSet sig sigValid event fault st
      let rest := deliverList secretSet sig sigValid event fault n r.2
      (r.1 :: rest.1, rest.2)

/-- Request body of `POST /stripe/create-checkout`. -/
structure CreateCheckoutBody where
  user_id : Int
  pack : String
  price_id : String
deriving DecidableEq, Repr

/-- Outcome of `create_checkout`: an `HTTPException` or the
`\x7b"checkout_url", "session_id"\x7d` payload. -/
inductive CheckoutResult where
  | httpError (code : Nat) (detail : String)
  | ok (checkout_url : String) (session_id : String)
deriving DecidableEq, Repr

/-- The `/stripe/create-checkout` handler.  `secretKeySet` and
`baseUrlSet` are whether `STRIPE_SECRET_KEY` and `PUBLIC_BASE_URL` are
configured; `provider` is the outcome of the one remote call
`stripe.checkout.Session.create` (error message, or url and session id).
The handler performs no store access, so the state is passed through
unchanged; the returned `Bool` records whether the provider call was
attempted. -/
def create_checkout (secretKeySet baseUrlSet : Bool) (body : CreateCheckoutBody)
    (provider : Except String (String × String)) (st : DBState) :
    CheckoutResult × Bool × DBState :=
  if !secretKeySet then
    (.httpError 500 "STRIPE_SECRET_KEY not set", false, st)
  else if (PACK_TO_SONGS body.pack).isNone then
    (.httpError 400 "Unknown pack", false, st)
  else if !baseUrlSet then
    (.httpError 500 "PUBLIC_BASE_URL not set", false, st)
  else
    match provider with
    | .error e => (.httpError 400 ("Stripe error: " ++ e), true, st)
    | .ok (url, sid) => (.ok url sid, true, st)

/-- The well-formed paid completed-checkout event with session id `sid`
and metadata `user_id = uidS`, `pack = pk`, as produced by a checkout
created through `create_checkout`. -/
def paidEvent (sid uidS pk : String) : StripeEvent :=
  ⟨"checkout.session.completed", ⟨some sid, some "paid", some ⟨some uidS, some pk⟩⟩⟩

/-- Reachability of a store state from another through the operations of
this subsystem.  The webhook handler and the checkout-creation handler
are the only request handlers that could touch the store (the redirect
pages perform no store access at all, and `init_db` only creates the
empty tables), so a reachable state is one produced by any sequence of
such requests, with arbitrary inputs. -/
inductive Reach (st : DBState) : DBState → Prop where
  | refl : Reach st st
  | webhook (st' : DBState) (secretSet : Bool) (sig : Option String)
      (sigValid : Bool) (ev : StripeEvent) (fault : Bool) (h : Reach st st') :
      Reach st (stripe_webhook secretSet sig sigValid ev fault st').2
  | checkout (st' : DBState) (secretKeySet baseUrlSet : Bool)
      (body : CreateCheckoutBody) (provider : Except String (String × String))
      (h : Reach st st') :
      Reach st (create_checkout secretKeySet baseUrlSet body provider st').2.2

/-! ### Helper lemmas -/

lemma truthy_some {s : String} (h : s ≠ "") : truthy (some s) = true := by
  simp [truthy, h]

lemma pack_songs_nonneg {p : String} {n : Int} (h : PACK_TO_SONGS p = some n) :
    0 ≤ n := by
  unfold PACK_TO_SONGS at h
  split_ifs at h <;> simp_all <;> omega

lemma purchases_creditState (st : DBState) (sid : String) (uid : Int) (pk : String)
    (songs : Int) (s : String) :
    (creditState st sid uid pk songs).purchases s
      = if s = sid then some ⟨uid, pk, songs⟩ else st.purchases s := by
  unfold creditState bumpBalance setPurchase upsertUser
  cases h : st.users uid <;> simp

lemma users_creditState_other (st : DBState) (sid : String) (uid : Int) (pk : String)
    (songs : Int) (u : Int) (hu : u ≠ uid) :
    (creditState st sid uid pk songs).users u = st.users u := by
  unfold creditState bumpBalance setPurchase upsertUser
  cases h : st.users uid <;> simp [hu]

lemma balanceOf_creditState (st : DBState) (sid : String) (uid : Int) (pk : String)
    (songs : Int) (u : Int) :
    balanceOf (creditState st sid uid pk songs) u
      = if u = uid then balanceOf st uid + songs else balanceOf st u := by
  by_cases hu : u = uid
  · subst hu
    unfold balanceOf creditState bumpBalance setPurchase upsertUser
    cases h : st.users u <;> simp [h]
  · rw [balanceOf, users_creditState_other st sid uid pk songs u hu, if_neg hu, balanceOf]

lemma abo_rollback (fault : Bool) (st : DBState) (sid : String) (uid : Int)
    (pk : String) (songs : Int)
    (h : fault = true ∨ (st.purchases sid).isSome = true) :
    add_balance_once fault st sid uid pk songs = (false, st) := by
  unfold add_balance_once
  rcases h with h | h <;> simp [h]

lemma abo_fresh (st : DBState) (sid : String) (uid : Int) (pk : String) (songs : Int)
    (h : st.purchases sid = none) :
    add_balance_once false st sid uid pk songs
      = (true, creditState st sid uid pk songs) := by
  unfold add_balance_once
  simp [h]

lemma handleCredit_eq (fault : Bool) (sid uidS pk : String) (st : DBState)
    (uid songs : Int) (hp : PACK_TO_SONGS pk = some songs) (hu : pyInt uidS = some uid) :
    handleCredit fault sid uidS pk st
      = (.ok ⟨true, none, some (add_balance_once fault st sid uid pk songs).1⟩,
         (add_balance_once fault st sid uid pk songs).2) := by
  unfold handleCredit
  rw [hp, hu]

lemma webhook_paid_guard (sig : Option String) (hsig : truthy sig = true)
    (sid uidS pk : String) (hsid : sid ≠ "") (huidS : uidS ≠ "")
    (hpk : (PACK_TO_SONGS pk).isSome = true) (fault : Bool) (st : DBState) :
    stripe_webhook true sig true (paidEvent sid uidS pk) fault st
      = handleCredit fault sid uidS pk st := by
  unfold stripe_webhook paidEvent handleCompleted
  simp [hsig, hsid, huidS, hpk, Option.bind]

lemma deliverList_fixed (secretSet : Bool) (sig : Option String) (sigValid : Bool)
    (ev : StripeEvent) (fault : Bool) (st : DBState) (r : WebhookResult)
    (hr : stripe_webhook secretSet sig sigValid ev fault st = (r, st)) :
    ∀ n, deliverList secretSet sig sigValid ev fault n st = (List.replicate n r, st) := by
  intro n
  induction n with
  | zero => rfl
  | succ m ih =>
      show (let r' := stripe_webhook secretSet sig sigValid ev fault st
            let rest := deliverList secretSet sig sigValid ev fault m r'.2
            (r'.1 :: rest.1, rest.2)) = _
      rw [hr]
      simp only [ih, List.replicate]

lemma truthy_eq_true {o : Option String} :
    truthy o = true ↔ ∃ s, o = some s ∧ s ≠ "" := by
  cases o <;> simp [truthy]

lemma webhook_valid_sig (sig : Option String) (hsig : truthy sig = true)
    (ev : StripeEvent) (fault : Bool) (st : DBState)
    (hty : ev.type = "checkout.session.completed") :
    stripe_webhook true sig true ev fault st = handleCompleted fault ev.obj st := by
  unfold stripe_webhook
  simp [hsig, hty]

lemma webhook_wrong_type (sig : Option String) (hsig : truthy sig = true)
    (ev : StripeEvent) (fault : Bool) (st : DBState)
    (hty : ev.type ≠ "checkout.session.completed") :
    stripe_webhook true sig true ev fault st = (.ok ⟨true, none, none⟩, st) := by
  unfold stripe_webhook
  simp [hsig, hty]

lemma create_checkout_state (secretKeySet baseUrlSet : Bool) (body : CreateCheckoutBody)
    (provider : Except String (String × String)) (st : DBState) :
    (create_checkout secretKeySet baseUrlSet body provider st).2.2 = st := by
  unfold create_checkout
  split_ifs <;> try rfl
  rcases provider with e | ⟨url, sid⟩ <;> rfl

lemma balanceOf_abo_le (fault : Bool) (st : DBState) (sid : String) (uid : Int)
    (pk : String) (songs : Int) (u : Int) (h : 0 ≤ songs) :
    balanceOf st u ≤ balanceOf (add_balance_once fault st sid uid pk songs).2 u := by
  unfold add_balance_once
  split
  · exact le_refl _
  · show balanceOf st u ≤ balanceOf (creditState st sid uid pk songs) u
    rw [balanceOf_creditState]
    split
    · rename_i hu
      rw [hu]
      linarith
    · exact le_refl _

lemma balanceOf_handleCredit_le (fault : Bool) (sid uidS pk : String)
    (st : DBState) (u : Int) :
    balanceOf st u ≤ balanceOf (handleCredit fault sid uidS pk st).2 u := by
  unfold handleCredit
  cases hp : PACK_TO_SONGS pk with
  | none => exact le_refl _
  | some songs =>
      cases hu : pyInt uidS with
      | none => exact le_refl _
      | some uid => exact balanceOf_abo_le fault st sid uid pk songs u (pack_songs_nonneg hp)

lemma balanceOf_handleCompleted_le (fault : Bool) (s : StripeSession)
    (st : DBState) (u : Int) :
    balanceOf st u ≤ balanceOf (handleCompleted fault s st).2 u := by
  unfold handleCompleted
  split
  · exact le_refl _
  · split
    · split
      · apply balanceOf_handleCredit_le
      · exact le_refl _
    · exact le_refl _

lemma balanceOf_webhook_le (secretSet : Bool) (sig : Option String) (sigValid : Bool)
    (ev : StripeEvent) (fault : Bool) (st : DBState) (u : Int) :
    balanceOf st u ≤ balanceOf (stripe_webhook secretSet sig sigValid ev fault st).2 u := by
  unfold stripe_webhook
  split
  · exact le_refl _
  · split
    · exact le_refl _
    · split
      · exact le_refl _
      · split
        · apply balanceOf_handleCompleted_le
        · exact le_refl _

/-! ### Claim theorems -/

/-- C2: in `add_balance_once`, a purchase insert rejected by the
uniqueness constraint rolls the transaction back, leaves the store
unchanged and reports not-newly-credited; a successful insert commits the
purchase record together with the balance increment of `songs` for the
user, atomically in one transition, touching no other row. -/
theorem add_balance_once_atomic (st : DBState) (sid : String) (uid : Int)
    (pk : String) (songs : Int) :
    ((st.purchases sid).isSome = true →
        add_balance_once false st sid uid pk songs = (false, st)) ∧
    (st.purchases sid = none →
        (add_balance_once false st sid uid pk songs).1 = true ∧
        (add_balance_once false st sid uid pk songs).2.purchases sid
          = some ⟨uid, pk, songs⟩ ∧
        balanceOf (add_balance_once false st sid uid pk songs).2 uid
          = balanceOf st uid + songs ∧
        (∀ s, s ≠ sid →
          (add_balance_once false st sid uid pk songs).2.purchases s = st.purchases s) ∧
        (∀ u, u ≠ uid →
          (add_balance_once false st sid uid pk songs).2.users u = st.users u)) := by
  constructor
  · intro h
    exact abo_rollback false st sid uid pk songs (Or.inr h)
  · intro h
    rw [abo_fresh st sid uid pk songs h]
    refine ⟨rfl, ?_, ?_, ?_, ?_⟩
    · rw [purchases_creditState]
      simp
    · rw [balanceOf_creditState]
      simp
    · intro s hs
      rw [purchases_creditState]
      simp [hs]
    · intro u hu
      exact users_creditState_other st sid uid pk songs u hu

/-- Witness for C2 at a concrete fresh session on the empty store. -/
theorem add_balance_once_atomic_witness :
    (add_balance_once false emptyDB "sess_abc" 1001 "pack_5" 5).1 = true ∧
    (add_balance_once false emptyDB "sess_abc" 1001 "pack_5" 5).2.purchases "sess_abc"
      = some ⟨1001, "pack_5", 5⟩ ∧
    balanceOf (add_balance_once false emptyDB "sess_abc" 1001 "pack_5" 5).2 1001
      = balanceOf emptyDB 1001 + 5 := by
  have h := (add_balance_once_atomic emptyDB "sess_abc" 1001 "pack_5" 5).2 rfl
  exact ⟨h.1, h.2.1, h.2.2.1⟩

/-- C10: when the purchase insert raises for any reason — a uniqueness
violation or any other database error (`fault`) — the whole transaction
is rolled back (including the user upsert), the store is left unchanged
and `False` is returned; the webhook then acknowledges with
`credited = false` and a 200 payload. -/
theorem insert_failure_rolls_back (st : DBState) (sig : Option String)
    (sid uidS pk : String) (uid songs : Int)
    (hsig : truthy sig = true) (hsid : sid ≠ "") (huidS : uidS ≠ "")
    (hp : PACK_TO_SONGS pk = some songs) (hu : pyInt uidS = some uid) :
    add_balance_once true st sid uid pk songs = (false, st) ∧
    stripe_webhook true sig true (paidEvent sid uidS pk) true st
      = (.ok ⟨true, none, some false⟩, st) := by
  have h1 := abo_rollback true st sid uid pk songs (Or.inl rfl)
  refine ⟨h1, ?_⟩
  rw [webhook_paid_guard sig hsig sid uidS pk hsid huidS (by simp [hp]) true st,
      handleCredit_eq true sid uidS pk st uid songs hp hu, h1]

/-- Witness for C10 at a concrete event and the empty store. -/
theorem insert_failure_rolls_back_witness :
    add_balance_once true emptyDB "sess_abc" 1001 "pack_5" 5 = (false, emptyDB) ∧
    stripe_webhook true (some "t") true (paidEvent "sess_abc" "1001" "pack_5") true emptyDB
      = (.ok ⟨true, none, some false⟩, emptyDB) :=
  insert_failure_rolls_back emptyDB (some "t") "sess_abc" "1001" "pack_5" 1001 5
    (by decide) (by decide) (by decide) rfl (by decide)

/-- C3: an unconfigured webhook secret fails closed with a 500 error and
no store change regardless of the payload; with the secret configured, an
absent signature header or a failed signature verification is rejected
with a 400 error and no store change, again regardless of the payload. -/
theorem webhook_auth_failure_no_mutation (secretSet : Bool) (sig : Option String)
    (sigValid : Bool) (ev : StripeEvent) (fault : Bool) (st : DBState) :
    (secretSet = false →
        stripe_webhook secretSet sig sigValid ev fault st
          = (.httpError 500 "STRIPE_WEBHOOK_SECRET not set", st)) ∧
    (secretSet = true → sig = none ∨ sigValid = false →
        (stripe_webhook secretSet sig sigValid ev fault st).2 = st ∧
        ((stripe_webhook secretSet sig sigValid ev fault st).1
            = .httpError 400 "Missing Stripe-Signature header" ∨
         (stripe_webhook secretSet sig sigValid ev fault st).1
            = .httpError 400 "Invalid signature")) := by
  constructor
  · intro h
    subst h
    rfl
  · intro hS h
    subst hS
    unfold stripe_webhook
    rcases h with h | h
    · subst h
      exact ⟨rfl, Or.inl rfl⟩
    · subst h
      by_cases ht : truthy sig = true
      · simp [ht]
      · simp [Bool.not_eq_true] at ht
        simp [ht]

/-- Witness for C3: missing header on a configured secret, and missing
secret, at concrete inputs. -/
theorem webhook_auth_failure_no_mutation_witness :
    (stripe_webhook true none true (paidEvent "s" "1" "pack_1") false emptyDB).2
      = emptyDB ∧
    stripe_webhook false (some "t") true (paidEvent "s" "1" "pack_1") false emptyDB
      = (.httpError 500 "STRIPE_WEBHOOK_SECRET not set", emptyDB) :=
  ⟨((webhook_auth_failure_no_mutation true none true (paidEvent "s" "1" "pack_1")
      false emptyDB).2 rfl (Or.inl rfl)).1,
   (webhook_auth_failure_no_mutation false (some "t") true (paidEvent "s" "1" "pack_1")
      false emptyDB).1 rfl⟩

/-- C5: a signature-valid paid completed-checkout event whose session id
is absent, whose metadata user id is absent, or whose pack selector is
absent or unknown, is acknowledged with the bare 200 payload and changes
nothing in the store. -/
theorem missing_fields_acknowledged (sig : Option String) (ev : StripeEvent)
    (fault : Bool) (st : DBState) (hsig : truthy sig = true)
    (hty : ev.type = "checkout.session.completed")
    (hps : ev.obj.payment_status = some "paid")
    (h : ev.obj.id = none ∨ ev.obj.metadata.bind SessionMeta.user_id = none
         ∨ packMem (ev.obj.metadata.bind SessionMeta.pack) = false) :
    stripe_webhook true sig true ev fault st = (.ok ⟨true, none, none⟩, st) := by
  rw [webhook_valid_sig sig hsig ev fault st hty]
  unfold handleCompleted
  rw [if_neg (by simp [hps])]
  rcases hid : ev.obj.id with _ | sid <;>
    rcases huid : ev.obj.metadata.bind SessionMeta.user_id with _ | uidS <;>
      rcases hpk : ev.obj.metadata.bind SessionMeta.pack with _ | pk <;>
        simp_all [packMem]

/-- Witness for C5: a paid event carrying an unknown pack selector. -/
theorem missing_fields_acknowledged_witness :
    stripe_webhook true (some "t") true
        ⟨"checkout.session.completed",
         ⟨some "sess_q", some "paid", some ⟨some "9", some "pack_99"⟩⟩⟩
        false emptyDB
      = (.ok ⟨true, none, none⟩, emptyDB) :=
  missing_fields_acknowledged (some "t")
    ⟨"checkout.session.completed",
     ⟨some "sess_q", some "paid", some ⟨some "9", some "pack_99"⟩⟩⟩
    false emptyDB (by decide) rfl rfl (Or.inr (Or.inr (by decide)))

/-- C9: a signature-valid paid completed-checkout event with a present
session id, a catalog pack, and a present metadata user id that is not a
decimal numeral makes the handler raise an unhandled conversion error
(server error) instead of returning an acknowledgment; the store is
unchanged since the conversion happens before any database write. -/
theorem nonnumeric_user_raises : ∀ st : DBState,
    stripe_webhook true (some "sig") true (paidEvent "sess_1" "abc" "pack_1") false st
      = (.raised, st) := by
  intro st
  rw [webhook_paid_guard (some "sig") (by decide) "sess_1" "abc" "pack_1"
      (by decide) (by decide) (by decide) false st]
  unfold handleCredit
  have h1 : PACK_TO_SONGS "pack_1" = some 1 := by decide
  have h2 : pyInt "abc" = none := by decide
  simp only [h1, h2]

/-- C4: a signature-valid `checkout.session.completed` event whose
payment status is anything but `"paid"` is acknowledged as ignored
(`not_paid`) with a 200 payload, creating no purchase record and changing
no balance, for any number `n` of deliveries. -/
theorem not_paid_ignored (sig : Option String) (ev : StripeEvent) (fault : Bool)
    (st : DBState) (n : Nat) (hsig : truthy sig = true)
    (hty : ev.type = "checkout.session.completed")
    (hps : ev.obj.payment_status ≠ some "paid") :
    deliverList true sig true ev fault n st
      = (List.replicate n (.ok ⟨true, some "not_paid", none⟩), st) := by
  apply deliverList_fixed
  rw [webhook_valid_sig sig hsig ev fault st hty]
  unfold handleCompleted
  rw [if_pos hps]

/-- Witness for C4: two deliveries of an `"unpaid"` event. -/
theorem not_paid_ignored_witness :
    deliverList true (some "t") true
        ⟨"checkout.session.completed",
         ⟨some "sess_xyz", some "unpaid", some ⟨some "1001", some "pack_5"⟩⟩⟩
        false 2 emptyDB
      = ([.ok ⟨true, some "not_paid", none⟩, .ok ⟨true, some "not_paid", none⟩],
         emptyDB) :=
  not_paid_ignored (some "t")
    ⟨"checkout.session.completed",
     ⟨some "sess_xyz", some "unpaid", some ⟨some "1001", some "pack_5"⟩⟩⟩
    false emptyDB 2 (by decide) rfl (by decide)

/-- C1: delivering the same valid completed-and-paid checkout event
`n ≥ 1` times to a store in which the session is not yet recorded
produces the purchase record for that session (and touches no other
purchase row), adds the pack's credit-units to the user's balance exactly
once, and answers the first delivery with `credited = true` and every
later one with `credited = false`, all as 200 acknowledgments. -/
theorem idempotent_credit (sig : Option String) (sid uidS pk : String)
    (uid songs : Int) (n : Nat) (st : DBState)
    (hsig : truthy sig = true) (hsid : sid ≠ "") (huidS : uidS ≠ "")
    (hp : PACK_TO_SONGS pk = some songs) (hu : pyInt uidS = some uid)
    (hfresh : st.purchases sid = none) (hn : 1 ≤ n) :
    (deliverList true sig true (paidEvent sid uidS pk) false n st).1
      = .ok ⟨true, none, some true⟩
          :: List.replicate (n - 1) (.ok ⟨true, none, some false⟩) ∧
    (deliverList true sig true (paidEvent sid uidS pk) false n st).2.purchases sid
      = some ⟨uid, pk, songs⟩ ∧
    balanceOf (deliverList true sig true (paidEvent sid uidS pk) false n st).2 uid
      = balanceOf st uid + songs ∧
    (∀ s, s ≠ sid →
      (deliverList true sig true (paidEvent sid uidS pk) false n st).2.purchases s
        = st.purchases s) := by
  have hpk' : (PACK_TO_SONGS pk).isSome = true := by simp [hp]
  have hstep1 : stripe_webhook true sig true (paidEvent sid uidS pk) false st
      = (.ok ⟨true, none, some true⟩, creditState st sid uid pk songs) := by
    rw [webhook_paid_guard sig hsig sid uidS pk hsid huidS hpk' false st,
        handleCredit_eq false sid uidS pk st uid songs hp hu,
        abo_fresh st sid uid pk songs hfresh]
  have h1p : (creditState st sid uid pk songs).purchases sid = some ⟨uid, pk, songs⟩ := by
    rw [purchases_creditState]
    simp
  have hstep2 : stripe_webhook true sig true (paidEvent sid uidS pk) false
      (creditState st sid uid pk songs)
      = (.ok ⟨true, none, some false⟩, creditState st sid uid pk songs) := by
    rw [webhook_paid_guard sig hsig sid uidS pk hsid huidS hpk' false _,
        handleCredit_eq false sid uidS pk _ uid songs hp hu,
        abo_rollback false _ sid uid pk songs (Or.inr (by rw [h1p]; rfl))]
  rcases n with _ | m
  · omega
  have hall : deliverList true sig true (paidEvent sid uidS pk) false (m + 1) st
      = (.ok ⟨true, none, some true⟩
          :: List.replicate m (.ok ⟨true, none, some false⟩),
         creditState st sid uid pk songs) := by
    have hrest := deliverList_fixed true sig true (paidEvent sid uidS pk) false
      (creditState st sid uid pk songs) _ hstep2 m
    show (let r := stripe_webhook true sig true (paidEvent sid uidS pk) false st
          let rest := deliverList true sig true (paidEvent sid uidS pk) false m r.2
          (r.1 :: rest.1, rest.2)) = _
    rw [hstep1]
    simp only [hrest]
  rw [hall]
  refine ⟨by simp, h1p, ?_, ?_⟩
  · rw [balanceOf_creditState]
    simp
  · intro s hs
    rw [purchases_creditState]
    simp [hs]

/-- Witness for C1: the spec's concrete scenario — user 1001 buys
`pack_5` via session `sess_abc`, the event is delivered twice. -/
theorem idempotent_credit_witness :
    (deliverList true (some "t") true (paidEvent "sess_abc" "1001" "pack_5")
        false 2 emptyDB).1
      = [.ok ⟨true, none, some true⟩, .ok ⟨true, none, some false⟩] ∧
    (deliverList true (some "t") true (paidEvent "sess_abc" "1001" "pack_5")
        false 2 emptyDB).2.purchases "sess_abc" = some ⟨1001, "pack_5", 5⟩ ∧
    balanceOf (deliverList true (some "t") true (paidEvent "sess_abc" "1001" "pack_5")
        false 2 emptyDB).2 1001 = balanceOf emptyDB 1001 + 5 := by
  have h := idempotent_credit (some "t") "sess_abc" "1001" "pack_5" 1001 5 2 emptyDB
    (by decide) (by decide) (by decide) rfl (by decide) rfl (by omega)
  exact ⟨h.1, h.2.1, h.2.2.1⟩

/-- C6: a checkout-creation request with a pack selector outside the
fixed catalog never reaches the payment provider and leaves the store
unchanged; with the secret key configured it is rejected with the 400
"Unknown pack" client error. -/
theorem unknown_pack_rejected (secretKeySet baseUrlSet : Bool)
    (body : CreateCheckoutBody) (provider : Except String (String × String))
    (st : DBState) (h : PACK_TO_SONGS body.pack = none) :
    (create_checkout secretKeySet baseUrlSet body provider st).2.1 = false ∧
    (create_checkout secretKeySet baseUrlSet body provider st).2.2 = st ∧
    (secretKeySet = true →
      (create_checkout secretKeySet baseUrlSet body provider st).1
        = .httpError 400 "Unknown pack") := by
  cases secretKeySet
  · exact ⟨rfl, rfl, fun hc => by simp at hc⟩
  · unfold create_checkout
    simp [h]

/-- Witness for C6: a request for the unknown selector `pack_99`. -/
theorem unknown_pack_rejected_witness :
    (create_checkout true true ⟨1001, "pack_99", "price_x"⟩ (.ok ("u", "s")) emptyDB).2.1
      = false ∧
    (create_checkout true true ⟨1001, "pack_99", "price_x"⟩ (.ok ("u", "s")) emptyDB).1
      = .httpError 400 "Unknown pack" := by
  have h := unknown_pack_rejected true true ⟨1001, "pack_99", "price_x"⟩
    (.ok ("u", "s")) emptyDB (by decide)
  exact ⟨h.1, h.2.2 rfl⟩

/-- C7: across every reachable sequence of operations of this subsystem,
no user's balance is ever decremented (each step either leaves it alone
or adds a catalog pack's positive credit-units together with the recorded
purchase), so a store whose balances are all non-negative keeps them
non-negative. -/
theorem balance_never_decremented (st st' : DBState) (h : Reach st st') :
    (∀ u, balanceOf st u ≤ balanceOf st' u) ∧
    ((∀ u, 0 ≤ balanceOf st u) → ∀ u, 0 ≤ balanceOf st' u) := by
  have mono : ∀ u, balanceOf st u ≤ balanceOf st' u := by
    induction h with
    | refl => exact fun u => le_refl _
    | webhook st1 secretSet sig sigValid ev fault h ih =>
        exact fun u =>
          le_trans (ih u) (balanceOf_webhook_le secretSet sig sigValid ev fault st1 u)
    | checkout st1 secretKeySet baseUrlSet body provider h ih =>
        intro u
        rw [create_checkout_state]
        exact ih u
  exact ⟨mono, fun h0 u => le_trans (h0 u) (mono u)⟩

/-- Witness for C7: one webhook step from the empty store keeps the
balance of user 1001 non-negative. -/
theorem balance_never_decremented_witness :
    0 ≤ balanceOf
        (stripe_webhook true (some "t") true (paidEvent "sess_abc" "1001" "pack_5")
          false emptyDB).2 1001 :=
  (balance_never_decremented emptyDB _
      (Reach.webhook emptyDB true (some "t") true
        (paidEvent "sess_abc" "1001" "pack_5") false Reach.refl)).2
    (fun _ => le_refl 0) 1001

/-- Counterexample for C8: the handler does NOT distinguish
ignored-wrong-event from ignored-missing-fields — a signature-valid event
of a foreign type and a signature-valid paid completed-checkout event
with no metadata both receive the identical bare payload
`\x7b"ok": True\x7d`. -/
theorem ack_payloads_coincide :
    (stripe_webhook true (some "t") true
        ⟨"payment_intent.succeeded", ⟨none, none, none⟩⟩ false emptyDB).1
      = .ok ⟨true, none, none⟩ ∧
    (stripe_webhook true (some "t") true
        ⟨"checkout.session.completed", ⟨some "sess_2", some "paid", none⟩⟩
        false emptyDB).1
      = .ok ⟨true, none, none⟩ := by
  constructor <;> decide

/-- C8 (amended): for every webhook request that passes the configuration
and signature checks and does not hit the unhandled user-id conversion
error, the handler returns a 200 acknowledgment whose payload
distinguishes ignored-not-paid and credited-true/false, while
ignored-wrong-event and ignored-missing-fields both receive the same bare
success payload. -/
theorem webhook_ack_classification (sig : Option String) (ev : StripeEvent)
    (fault : Bool) (st : DBState) (hsig : truthy sig = true)
    (hnr : ∀ uidS, ev.obj.metadata.bind SessionMeta.user_id = some uidS →
        uidS ≠ "" → (pyInt uidS).isSome = true) :
    (ev.type = "checkout.session.completed" →
        ev.obj.payment_status ≠ some "paid" →
        (stripe_webhook true sig true ev fault st).1
          = .ok ⟨true, some "not_paid", none⟩) ∧
    (ev.type = "checkout.session.completed" →
        ev.obj.payment_status = some "paid" → guardOk ev.obj = true →
        ∃ b, (stripe_webhook true sig true ev fault st).1 = .ok ⟨true, none, some b⟩) ∧
    ((ev.type ≠ "checkout.session.completed" ∨
        (ev.obj.payment_status = some "paid" ∧ guardOk ev.obj = false)) →
        (stripe_webhook true sig true ev fault st).1 = .ok ⟨true, none, none⟩) := by
  refine ⟨?_, ?_, ?_⟩
  · intro hty hps
    rw [webhook_valid_sig sig hsig ev fault st hty]
    unfold handleCompleted
    rw [if_pos hps]
  · intro hty hps hg
    rw [webhook_valid_sig sig hsig ev fault st hty]
    unfold guardOk at hg
    rw [Bool.and_eq_true, Bool.and_eq_true] at hg
    obtain ⟨⟨hg1, hg2⟩, hg3⟩ := hg
    obtain ⟨sid, hid, hsid⟩ := truthy_eq_true.mp hg1
    obtain ⟨uidS, huid, huidS⟩ := truthy_eq_true.mp hg2
    obtain ⟨uid, hu⟩ := Option.isSome_iff_exists.mp (hnr uidS huid huidS)
    rcases hpk : ev.obj.metadata.bind SessionMeta.pack with _ | pk
    · rw [hpk] at hg3
      simp [packMem] at hg3
    · rw [hpk] at hg3
      simp only [packMem] at hg3
      obtain ⟨songs, hp⟩ := Option.isSome_iff_exists.mp hg3
      unfold handleCompleted
      rw [if_neg (by simp [hps])]
      simp only [hid, huid, hpk]
      rw [if_pos ⟨hsid, huidS, by simp [hp]⟩,
          handleCredit_eq fault sid uidS pk st uid songs hp hu]
      exact ⟨_, rfl⟩
  · intro h
    rcases h with h | ⟨hps, hg⟩
    · rw [webhook_wrong_type sig hsig ev fault st h]
    · by_cases hty : ev.type = "checkout.session.completed"
      · rw [webhook_valid_sig sig hsig ev fault st hty]
        unfold handleCompleted
        rw [if_neg (by simp [hps])]
        unfold guardOk at hg
        rcases hid : ev.obj.id with _ | sid <;>
          rcases huid : ev.obj.metadata.bind SessionMeta.user_id with _ | uidS <;>
            rcases hpk : ev.obj.metadata.bind SessionMeta.pack with _ | pk <;>
              simp_all [packMem, truthy]
        split_ifs with hc
        · obtain ⟨a, b, c⟩ := hc
          rw [hg a b] at c
          simp at c
        · rfl
      · rw [webhook_wrong_type sig hsig ev fault st hty]

/-- Witness for C8 (amended): the not-paid outcome at a concrete event. -/
theorem webhook_ack_classification_witness :
    (stripe_webhook true (some "t") true
        ⟨"checkout.session.completed",
         ⟨some "sess_xyz", some "unpaid", some ⟨some "1001", some "pack_5"⟩⟩⟩
        false emptyDB).1
      = .ok ⟨true, some "not_paid", none⟩ :=
  (webhook_ack_classification (some "t")
      ⟨"checkout.session.completed",
       ⟨some "sess_xyz", some "unpaid", some ⟨some "1001", some "pack_5"⟩⟩⟩
      false emptyDB (by decide)
      (fun uidS h _ =>
        have h' : some "1001" = some uidS := h
        (Option.some.inj h') ▸ (by decide : (pyInt "1001").isSome = true))).1
    rfl (by decide)
